import Mathlib

/-!
Shallow embedding of the KIIT SmartBus fleet-tracking backend
(src/backend/src/models/Bus.js, src/backend/src/routes/buses.js,
src/backend/src/server.js).

Modelling conventions:
* JavaScript numbers are modelled as exact rationals (`ℚ`) for coordinates,
  speed and heading, and as integers (`ℤ`) for passenger counts and capacity.
* Mongoose documents are records; `Document.save()` together with the
  `busSchema.pre('save')` hook is the function `saveBus old new`: mongoose
  marks a primitive path modified only when it is set to a value different
  from the stored one, so `isModified('currentPassengers')` is modelled by
  `new.currentPassengers ≠ old.currentPassengers`.
* An Express handler is a function from the request data and the current
  fleet (the Bus collection) to an `Outcome`: the HTTP status code, the new
  fleet, and the list of Socket.io events emitted to the bus's room.
* MongoDB `$near` distance computation is internal to the database engine,
  so `findNearby` is parametrised by the distance function.
-/

/-- The `seatAvailability` enum of busSchema: 'Empty' | 'Few Seats' | 'Full'. -/
inductive SeatTier
  | empty
  | fewSeats
  | full
  deriving DecidableEq, Repr

/-- The `status` enum of busSchema: 'active' | 'inactive' | 'maintenance' | 'offline'. -/
inductive BusStatus
  | active
  | inactive
  | maintenance
  | offline
  deriving DecidableEq, Repr

/-- The `role` enum of userSchema: 'student' | 'driver' | 'admin'. -/
inductive Role
  | student
  | driver
  | admin
  deriving DecidableEq, Repr

/-- A Bus document (busSchema).  `destination` strings are coded as naturals;
`currentLocation.coordinates` is `[longitude, latitude]`, split into two
fields here. -/
structure Bus where
  busId : ℕ
  driverId : ℕ
  longitude : ℚ
  latitude : ℚ
  destination : ℕ
  status : BusStatus
  seatAvailability : SeatTier
  capacity : ℤ
  currentPassengers : ℤ
  lastUpdated : ℕ
  isActive : Bool
  speed : ℚ
  heading : ℚ
  deriving DecidableEq, Repr

/-- The tier computation of `busSchema.pre('save')`:
`percentage = (currentPassengers / capacity) * 100`;
`percentage === 0` → 'Empty'; `percentage >= 90` → 'Full'; else 'Few Seats'. -/
def hookTier (occ cap : ℤ) : SeatTier :=
  let percentage : ℚ := ((occ : ℚ) / (cap : ℚ)) * 100
  if percentage = 0 then SeatTier.empty
  else if 90 ≤ percentage then SeatTier.full
  else SeatTier.fewSeats

/-- Semantics of `Document.save()` with the `pre('save')` middleware of Bus.js: the seat
tier is recomputed only when `currentPassengers` was modified, i.e. set to a
value different from the stored one (`old`). -/
def saveBus (old new : Bus) : Bus :=
  if new.currentPassengers ≠ old.currentPassengers then
    { new with seatAvailability := hookTier new.currentPassengers new.capacity }
  else
    new

/-- Method `busSchema.methods.updateLocation(latitude, longitude, speed = 0, heading = 0)`:
sets `coordinates = [longitude, latitude]`, speed, heading, `lastUpdated`,
then saves. -/
def Bus.updateLocation (b : Bus) (latitude longitude speed heading : ℚ) (now : ℕ) : Bus :=
  saveBus b { b with
    longitude := longitude
    latitude := latitude
    speed := speed
    heading := heading
    lastUpdated := now }

/-- Method `busSchema.methods.updateStatus(status, seatAvailability, currentPassengers)`:
note `this.currentPassengers = currentPassengers || this.currentPassengers`,
so a falsy argument (0) keeps the stored value. -/
def Bus.updateStatus (b : Bus) (status : BusStatus) (seatAvailability : SeatTier)
    (currentPassengers : ℤ) (now : ℕ) : Bus :=
  saveBus b { b with
    status := status
    seatAvailability := seatAvailability
    currentPassengers := if currentPassengers = 0 then b.currentPassengers else currentPassengers
    lastUpdated := now }

/-- Lookup `Bus.findById` over the collection, by our surrogate `busId`. -/
def findBus (fleet : List Bus) (id : ℕ) : Option Bus :=
  fleet.find? (fun b => b.busId = id)

/-- Persisting a saved document: the stored copy with this id is replaced. -/
def replaceBus (fleet : List Bus) (id : ℕ) (nb : Bus) : List Bus :=
  fleet.map (fun b => if b.busId = id then nb else b)

/-- The authenticated caller (`req.user`) as populated by the auth middleware. -/
structure Caller where
  userId : ℕ
  role : Role
  deriving DecidableEq, Repr

/-- Body of `PUT /api/buses/:id/location`: latitude and longitude are
required, speed and heading are optional (defaulting to 0 in the handler). -/
structure LocBody where
  latitude : ℚ
  longitude : ℚ
  speed : Option ℚ
  heading : Option ℚ
  deriving DecidableEq, Repr

/-- Body of `PUT /api/buses/:id/status`: `status` and `seatAvailability` are
required and enum-typed; `currentPassengers` is optional, and `destination`
and `notes` are unvalidated optionals (`notes` is irrelevant here and
omitted). -/
structure StatusBody where
  status : BusStatus
  seatAvailability : SeatTier
  currentPassengers : Option ℤ
  destination : Option ℕ
  deriving DecidableEq, Repr

/-- The express-validator chain of `PUT /:id/location`:
`latitude` in [-90, 90], `longitude` in [-180, 180], optional `speed` ≥ 0,
optional `heading` in [0, 360] (`isFloat({ min: 0, max: 360 })` — both bounds
inclusive). -/
def validLocBody (b : LocBody) : Bool :=
  decide (-90 ≤ b.latitude ∧ b.latitude ≤ 90) &&
  decide (-180 ≤ b.longitude ∧ b.longitude ≤ 180) &&
  b.speed.all (fun s => decide (0 ≤ s)) &&
  b.heading.all (fun h => decide (0 ≤ h ∧ h ≤ 360))

/-- The express-validator chain of `PUT /:id/status`: `status` and
`seatAvailability` must lie in their enums (guaranteed here by typing) and
the optional `currentPassengers` must be a non-negative integer. -/
def validStatusBody (b : StatusBody) : Bool :=
  b.currentPassengers.all (fun c => decide (0 ≤ c))

/-- A Socket.io event emitted to the room `bus-<busId>`. -/
inductive Emit
  | locationUpdated (busId : ℕ) (latitude longitude speed heading : ℚ) (timestamp : ℕ)
  | statusUpdated (busId : ℕ) (status : BusStatus) (seatAvailability : SeatTier)
      (currentPassengers : ℤ) (destination : ℕ) (timestamp : ℕ)
  deriving DecidableEq, Repr

/-- Result of running a handler: HTTP status code, resulting Bus collection,
and the Socket.io events broadcast to the bus room. -/
structure Outcome where
  status : ℕ
  fleet : List Bus
  emits : List Emit
  deriving DecidableEq, Repr

/-- Handler of `PUT /api/buses/:id/location` (buses.js).  The auth
middleware (src/backend/src/middleware/auth.js is not part of the sources;
modelled from the spec in that unauthenticated callers are rejected before
the handler body runs — here with 401 and no side effect).  Then: validator
errors → 400; `findById` miss → 404; a caller of role driver who is not the
bus's driver → 403; otherwise `bus.updateLocation(...)` runs and one
`bus-location-updated` event is emitted to the room. -/
def putLocation (now : ℕ) (user : Option Caller) (fleet : List Bus) (id : ℕ)
    (body : LocBody) : Outcome :=
  match user with
  | none => ⟨401, fleet, []⟩
  | some u =>
    if validLocBody body then
      match findBus fleet id with
      | none => ⟨404, fleet, []⟩
      | some bus =>
        if u.role = Role.driver ∧ bus.driverId ≠ u.userId then ⟨403, fleet, []⟩
        else
          let speed := body.speed.getD 0
          let heading := body.heading.getD 0
          let nb := bus.updateLocation body.latitude body.longitude speed heading now
          ⟨200, replaceBus fleet id nb,
            [Emit.locationUpdated id body.latitude body.longitude speed heading now]⟩
    else ⟨400, fleet, []⟩

/-- Handler of `PUT /api/buses/:id/status` (buses.js): auth, validation,
`findById`, driver-ownership check as in `putLocation`; then `updateData`
is `{ status, seatAvailability }` plus `currentPassengers` when defined and
`destination` when supplied, assigned onto the document, `lastUpdated`
refreshed, and the document saved (running the pre-save tier hook); one
`bus-status-updated` event is emitted, reading `currentPassengers` and
`destination` back from the saved document. -/
def putStatus (now : ℕ) (user : Option Caller) (fleet : List Bus) (id : ℕ)
    (body : StatusBody) : Outcome :=
  match user with
  | none => ⟨401, fleet, []⟩
  | some u =>
    if validStatusBody body then
      match findBus fleet id with
      | none => ⟨404, fleet, []⟩
      | some bus =>
        if u.role = Role.driver ∧ bus.driverId ≠ u.userId then ⟨403, fleet, []⟩
        else
          let nb := saveBus bus { bus with
            status := body.status
            seatAvailability := body.seatAvailability
            currentPassengers := body.currentPassengers.getD bus.currentPassengers
            destination := body.destination.getD bus.destination
            lastUpdated := now }
          ⟨200, replaceBus fleet id nb,
            [Emit.statusUpdated id body.status body.seatAvailability
              nb.currentPassengers nb.destination now]⟩
    else ⟨400, fleet, []⟩

/-- Core of `POST /api/buses` (buses.js): a new Bus document with the
validated capacity (`isInt({ min: 1, max: 100 })`), the default KIIT
coordinates `[85.8189, 20.2961]`, and the schema defaults
(`status: 'inactive'`, `seatAvailability: 'Empty'`, `currentPassengers: 0`,
`isActive: true`, `speed: 0`, `heading: 0`). -/
def createBus (busId driverId : ℕ) (capacity : ℤ) (destination : ℕ) (now : ℕ) : Bus :=
  { busId := busId
    driverId := driverId
    longitude := 85.8189
    latitude := 20.2961
    destination := destination
    status := BusStatus.inactive
    seatAvailability := SeatTier.empty
    capacity := capacity
    currentPassengers := 0
    lastUpdated := now
    isActive := true
    speed := 0
    heading := 0 }

/-- Handler `socket.on('join-bus-tracking')` in server.js: the socket joins the room
`bus-<busId>` — and nothing else happens; no message is sent back to the
joining socket.  Rooms are modelled as a list of (socketId, busId) pairs,
the second component of the result is the list of events sent to the
joining socket. -/
def joinBusTracking (rooms : List (ℕ × ℕ)) (socketId busId : ℕ) :
    List (ℕ × ℕ) × List Emit :=
  ((socketId, busId) :: rooms, [])

/-- Handler `socket.on('update-bus-location')` in server.js: the received payload is
rebroadcast verbatim to the room `bus-<data.busId>`; no Bus document is read
or written, so the fleet is returned untouched. -/
def socketUpdateBusLocation (fleet : List Bus) (busId : ℕ)
    (latitude longitude speed heading : ℚ) (timestamp : ℕ) : List Bus × List Emit :=
  (fleet, [Emit.locationUpdated busId latitude longitude speed heading timestamp])

/-- Handler `socket.on('update-bus-status')` in server.js: same verbatim relay for
status payloads, again with no Registry access. -/
def socketUpdateBusStatus (fleet : List Bus) (busId : ℕ) (status : BusStatus)
    (seatAvailability : SeatTier) (currentPassengers : ℤ) (destination : ℕ)
    (timestamp : ℕ) : List Bus × List Emit :=
  (fleet, [Emit.statusUpdated busId status seatAvailability currentPassengers
    destination timestamp])

/-- Insertion into a list of (bus, distance) pairs kept sorted by distance. -/
def insByDist (x : Bus × ℚ) : List (Bus × ℚ) → List (Bus × ℚ)
  | [] => [x]
  | y :: ys => if x.2 ≤ y.2 then x :: y :: ys else y :: insByDist x ys

/-- Sorting by distance (MongoDB `$near` returns documents in ascending
distance order). -/
def sortByDist (l : List (Bus × ℚ)) : List (Bus × ℚ) :=
  l.foldr insByDist []

/-- Static `busSchema.statics.findNearby(coordinates, maxDistance)` together with
the `GET /nearby/:latitude/:longitude` handler: the `$near` query keeps the
buses with `status: 'active'` and `isActive: true` whose distance from the
query point is at most `maxDistance`, in ascending distance order.  The
spherical distance computation is internal to MongoDB and is taken as the
parameter `dist`.  Note: neither the static nor the route applies any
result-count limit. -/
def findNearby (dist : ℚ × ℚ → ℚ × ℚ → ℚ) (center : ℚ × ℚ) (maxDistance : ℚ)
    (fleet : List Bus) : List (Bus × ℚ) :=
  sortByDist
    (((fleet.filter (fun b => decide (b.status = BusStatus.active) && b.isActive)).map
        (fun b => (b, dist center (b.longitude, b.latitude)))).filter
      (fun p => decide (p.2 ≤ maxDistance)))

/-- A concrete admissible instantiation of the `dist` parameter (the
discrete metric), used only to evaluate `findNearby` on explicit inputs. -/
def dist01 (p q : ℚ × ℚ) : ℚ :=
  if p = q then 0 else 1

/-- Fixture: an active, empty bus with busId 1 assigned to driver 5, parked
at integer coordinates. -/
def demoBus : Bus :=
  { busId := 1
    driverId := 5
    longitude := 85
    latitude := 20
    destination := 0
    status := BusStatus.active
    seatAvailability := SeatTier.empty
    capacity := 50
    currentPassengers := 0
    lastUpdated := 0
    isActive := true
    speed := 0
    heading := 0 }

/-- Fixture: a second active bus further west. -/
def demoBusB : Bus :=
  { demoBus with busId := 2, longitude := 84 }

/-- Fixture: a soft-deleted bus (`isActive = false`), still stored. -/
def demoInactiveBus : Bus :=
  { demoBus with isActive := false }

/-- Fixture: the document committed by a status mutation on `demoBus` that
supplies no occupancy (caller tier taken verbatim, occupancy untouched). -/
def demoDriftedBus : Bus :=
  { demoBus with
    status := BusStatus.active
    seatAvailability := SeatTier.full
    lastUpdated := 10 }

/-- Fixture: the pre-save document of a status mutation on `demoBus` that
supplies occupancy 30 (before the pre-save hook recomputes the tier). -/
def demoStatusDoc : Bus :=
  { demoBus with
    status := BusStatus.active
    seatAvailability := SeatTier.full
    currentPassengers := 30
    lastUpdated := 10 }

/- ------------------------------------------------------------------ -/
/- Helper lemmas about the save hook and the handlers.                 -/
/- ------------------------------------------------------------------ -/

theorem saveBus_currentPassengers (old nb : Bus) :
    (saveBus old nb).currentPassengers = nb.currentPassengers := by
  unfold saveBus; split <;> rfl

theorem saveBus_capacity (old nb : Bus) :
    (saveBus old nb).capacity = nb.capacity := by
  unfold saveBus; split <;> rfl

theorem saveBus_tier_of_modified {old nb : Bus}
    (h : nb.currentPassengers ≠ old.currentPassengers) :
    (saveBus old nb).seatAvailability = hookTier nb.currentPassengers nb.capacity := by
  unfold saveBus; rw [if_pos h]

/-- C3.  The tier derivation of the pre-save hook, on the claim's domain
`0 ≤ occupancy ≤ capacity`, `capacity ≥ 1`: EMPTY iff occupancy = 0, FULL
iff occupancy/capacity ≥ 0.90, FEW_SEATS otherwise; in particular 41/45 is
FULL and 20/45 is FEW_SEATS. -/
theorem hookTier_spec (occ cap : ℤ) (h0 : 0 ≤ occ) (h1 : occ ≤ cap) (h2 : 1 ≤ cap) :
    (hookTier occ cap = SeatTier.empty ↔ occ = 0) ∧
    (hookTier occ cap = SeatTier.full ↔ (9 / 10 : ℚ) ≤ (occ : ℚ) / (cap : ℚ)) ∧
    (hookTier occ cap = SeatTier.fewSeats ↔
      ¬ occ = 0 ∧ ¬ (9 / 10 : ℚ) ≤ (occ : ℚ) / (cap : ℚ)) ∧
    hookTier 41 45 = SeatTier.full ∧ hookTier 20 45 = SeatTier.fewSeats := by
  have hfortyone : hookTier 41 45 = SeatTier.full := by norm_num [hookTier]
  have htwenty : hookTier 20 45 = SeatTier.fewSeats := by norm_num [hookTier]
  have hcapQ : (0 : ℚ) < (cap : ℚ) := by exact_mod_cast lt_of_lt_of_le one_pos h2
  have hcapne : ((cap : ℚ)) ≠ 0 := ne_of_gt hcapQ
  have hzero : (((occ : ℚ) / (cap : ℚ)) * 100 = 0) ↔ occ = 0 := by
    rw [mul_eq_zero, div_eq_zero_iff]
    simp [hcapne]
  have hninety : (90 ≤ ((occ : ℚ) / (cap : ℚ)) * 100) ↔
      (9 / 10 : ℚ) ≤ (occ : ℚ) / (cap : ℚ) := by
    constructor <;> intro h <;> linarith
  have hposne : (9 / 10 : ℚ) ≤ (occ : ℚ) / (cap : ℚ) → ¬ occ = 0 := by
    intro h h0'
    subst h0'
    norm_num at h
  refine ⟨?_, ?_, ?_, hfortyone, htwenty⟩
  · by_cases hocc : occ = 0
    · subst hocc
      simp [hookTier]
    · have hper : ¬ (((occ : ℚ) / (cap : ℚ)) * 100 = 0) := fun h => hocc (hzero.mp h)
      simp only [hookTier, if_neg hper]
      constructor
      · intro h
        split at h <;> simp_all
      · intro h
        exact absurd h hocc
  · by_cases hocc : occ = 0
    · subst hocc
      simp [hookTier]
    · have hper : ¬ (((occ : ℚ) / (cap : ℚ)) * 100 = 0) := fun h => hocc (hzero.mp h)
      simp only [hookTier, if_neg hper]
      by_cases h9 : 90 ≤ ((occ : ℚ) / (cap : ℚ)) * 100
      · simp only [if_pos h9]
        simpa using hninety.mp h9
      · simp only [if_neg h9]
        constructor
        · intro h
          exact absurd h (by simp)
        · intro h
          exact absurd (hninety.mpr h) h9
  · by_cases hocc : occ = 0
    · subst hocc
      simp [hookTier]
    · have hper : ¬ (((occ : ℚ) / (cap : ℚ)) * 100 = 0) := fun h => hocc (hzero.mp h)
      simp only [hookTier, if_neg hper]
      by_cases h9 : 90 ≤ ((occ : ℚ) / (cap : ℚ)) * 100
      · simp only [if_pos h9]
        constructor
        · intro h
          exact absurd h (by simp)
        · rintro ⟨-, hlt⟩
          exact absurd (hninety.mp h9) hlt
      · simp only [if_neg h9]
        constructor
        · intro
          exact ⟨hocc, fun h => h9 (hninety.mpr h)⟩
        · intro
          trivial

/-- Witness for `hookTier_spec`: instantiated at occupancy 41, capacity 45. -/
theorem hookTier_spec_witness :
    ((0 : ℤ) ≤ 41 ∧ (41 : ℤ) ≤ 45 ∧ (1 : ℤ) ≤ 45) ∧
    (hookTier 41 45 = SeatTier.full ↔ (9 / 10 : ℚ) ≤ (41 : ℚ) / (45 : ℚ)) ∧
    (hookTier 41 45 = SeatTier.empty ↔ (41 : ℤ) = 0) :=
  ⟨⟨by decide, by decide, by decide⟩,
    (hookTier_spec 41 45 (by decide) (by decide) (by decide)).2.1,
    (hookTier_spec 41 45 (by decide) (by decide) (by decide)).1⟩

/-- C10.  `Bus.updateStatus` with `currentPassengers = 0` keeps the stored
passenger count (the JS `||` treats 0 as "not supplied"), while any positive
count is stored as given. -/
theorem updateStatus_zero_keeps_count (b : Bus) (st : BusStatus) (sa : SeatTier)
    (now : ℕ) :
    (b.updateStatus st sa 0 now).currentPassengers = b.currentPassengers ∧
    ∀ cp : ℤ, 0 < cp → (b.updateStatus st sa cp now).currentPassengers = cp := by
  constructor
  · simp [Bus.updateStatus, saveBus_currentPassengers]
  · intro cp hcp
    have hne : ¬ cp = 0 := by omega
    simp [Bus.updateStatus, saveBus_currentPassengers, hne]

/-- Witness for `updateStatus_zero_keeps_count` at a concrete bus holding 7
passengers. -/
theorem updateStatus_zero_keeps_count_witness :
    (Bus.updateStatus { demoBus with currentPassengers := 7 } BusStatus.active
      SeatTier.fewSeats 0 3).currentPassengers = 7 ∧
    (Bus.updateStatus demoBus BusStatus.active SeatTier.fewSeats 12 3).currentPassengers = 12 :=
  ⟨(updateStatus_zero_keeps_count { demoBus with currentPassengers := 7 }
      BusStatus.active SeatTier.fewSeats 3).1,
    (updateStatus_zero_keeps_count demoBus BusStatus.active SeatTier.fewSeats 3).2 12
      (by decide)⟩

theorem mem_replaceBus {fleet : List Bus} {id : ℕ} {nb b : Bus}
    (hb : b ∈ replaceBus fleet id nb) :
    b = nb ∨ (b ∈ fleet ∧ b.busId ≠ id) := by
  unfold replaceBus at hb
  rcases List.mem_map.mp hb with ⟨a, ha, hfa⟩
  by_cases h : a.busId = id
  · rw [if_pos h] at hfa
    exact Or.inl hfa.symm
  · rw [if_neg h] at hfa
    exact Or.inr ⟨hfa ▸ ha, hfa ▸ h⟩

/-- Case analysis of the location handler: either it commits (status 200,
one broadcast) or it rejects (non-200 status, no broadcast, fleet
untouched). -/
theorem putLocation_cases (now : ℕ) (user : Option Caller) (fleet : List Bus)
    (id : ℕ) (body : LocBody) :
    ((putLocation now user fleet id body).status = 200 ∧
      (putLocation now user fleet id body).emits.length = 1) ∨
    ((putLocation now user fleet id body).status ≠ 200 ∧
      (putLocation now user fleet id body).emits = [] ∧
      (putLocation now user fleet id body).fleet = fleet) := by
  unfold putLocation
  split
  · exact Or.inr ⟨(by decide : (401 : ℕ) ≠ 200), rfl, rfl⟩
  · split
    · split
      · exact Or.inr ⟨(by decide : (404 : ℕ) ≠ 200), rfl, rfl⟩
      · split
        · exact Or.inr ⟨(by decide : (403 : ℕ) ≠ 200), rfl, rfl⟩
        · exact Or.inl ⟨rfl, rfl⟩
    · exact Or.inr ⟨(by decide : (400 : ℕ) ≠ 200), rfl, rfl⟩

/-- Case analysis of the status handler, same shape as `putLocation_cases`. -/
theorem putStatus_cases (now : ℕ) (user : Option Caller) (fleet : List Bus)
    (id : ℕ) (body : StatusBody) :
    ((putStatus now user fleet id body).status = 200 ∧
      (putStatus now user fleet id body).emits.length = 1) ∨
    ((putStatus now user fleet id body).status ≠ 200 ∧
      (putStatus now user fleet id body).emits = [] ∧
      (putStatus now user fleet id body).fleet = fleet) := by
  unfold putStatus
  split
  · exact Or.inr ⟨(by decide : (401 : ℕ) ≠ 200), rfl, rfl⟩
  · split
    · split
      · exact Or.inr ⟨(by decide : (404 : ℕ) ≠ 200), rfl, rfl⟩
      · split
        · exact Or.inr ⟨(by decide : (403 : ℕ) ≠ 200), rfl, rfl⟩
        · exact Or.inl ⟨rfl, rfl⟩
    · exact Or.inr ⟨(by decide : (400 : ℕ) ≠ 200), rfl, rfl⟩

/-- C1 (code bug).  A caller authenticated with role `student` is NOT
rejected by the location handler: the ownership check in buses.js only
fires for `role === 'driver'`, so the student's mutation returns 200, the
stored vehicle state (including `lastUpdated`) changes, and a broadcast is
emitted — where the claim requires `PermissionDenied` with no state change
and no broadcast. -/
theorem studentLocationMutationCommits :
    (putLocation 10 (some ⟨99, Role.student⟩) [demoBus] 1 ⟨21, 86, none, none⟩).status = 200 ∧
    (putLocation 10 (some ⟨99, Role.student⟩) [demoBus] 1 ⟨21, 86, none, none⟩).fleet ≠ [demoBus] ∧
    (putLocation 10 (some ⟨99, Role.student⟩) [demoBus] 1 ⟨21, 86, none, none⟩).emits ≠ [] := by
  decide

/-- C4 counterexample.  The `update-bus-location` socket handler in
server.js rebroadcasts the client-supplied payload to the room while the
Registry (the Bus collection) is not touched at all: a broadcast happens
with no corresponding committed mutation. -/
theorem socketRelayBroadcastsWithoutCommit :
    (socketUpdateBusLocation [demoBus] 1 21 86 10 180 7).1 = [demoBus] ∧
    (socketUpdateBusLocation [demoBus] 1 21 86 10 180 7).2 ≠ [] := by
  decide

/-- C4 as amended.  The HTTP mutation handlers broadcast exactly once per
committed mutation (one event iff status 200; rejected calls emit nothing
and leave the fleet untouched), while the socket relay handlers never touch
the fleet even though they emit. -/
theorem httpMutationEmitsExactlyOnce (now : ℕ) (user : Option Caller)
    (fleet : List Bus) (id : ℕ) (lb : LocBody) (sb : StatusBody)
    (la lo sp he : ℚ) (st : BusStatus) (sa : SeatTier) (cp : ℤ) (dest : ℕ)
    (ts : ℕ) :
    ((putLocation now user fleet id lb).status = 200 →
      (putLocation now user fleet id lb).emits.length = 1) ∧
    ((putLocation now user fleet id lb).status ≠ 200 →
      (putLocation now user fleet id lb).emits = [] ∧
      (putLocation now user fleet id lb).fleet = fleet) ∧
    ((putStatus now user fleet id sb).status = 200 →
      (putStatus now user fleet id sb).emits.length = 1) ∧
    ((putStatus now user fleet id sb).status ≠ 200 →
      (putStatus now user fleet id sb).emits = [] ∧
      (putStatus now user fleet id sb).fleet = fleet) ∧
    (socketUpdateBusLocation fleet id la lo sp he ts).1 = fleet ∧
    (socketUpdateBusStatus fleet id st sa cp dest ts).1 = fleet := by
  refine ⟨?_, ?_, ?_, ?_, rfl, rfl⟩
  · intro h200
    rcases putLocation_cases now user fleet id lb with ⟨-, h⟩ | ⟨hne, -, -⟩
    · exact h
    · exact absurd h200 hne
  · intro hne
    rcases putLocation_cases now user fleet id lb with ⟨h200, -⟩ | ⟨-, h1, h2⟩
    · exact absurd h200 hne
    · exact ⟨h1, h2⟩
  · intro h200
    rcases putStatus_cases now user fleet id sb with ⟨-, h⟩ | ⟨hne, -, -⟩
    · exact h
    · exact absurd h200 hne
  · intro hne
    rcases putStatus_cases now user fleet id sb with ⟨h200, -⟩ | ⟨-, h1, h2⟩
    · exact absurd h200 hne
    · exact ⟨h1, h2⟩

/-- Witness for `httpMutationEmitsExactlyOnce`: a committing location
mutation emits exactly one event, and an unauthenticated status mutation
emits nothing. -/
theorem httpMutationEmitsExactlyOnceWitness :
    (putLocation 10 (some ⟨99, Role.admin⟩) [demoBus] 1 ⟨21, 86, none, none⟩).emits.length = 1 ∧
    (putStatus 10 none [demoBus] 1 ⟨BusStatus.active, SeatTier.empty, none, none⟩).emits = [] := by
  constructor
  · exact (httpMutationEmitsExactlyOnce 10 (some ⟨99, Role.admin⟩) [demoBus] 1
      ⟨21, 86, none, none⟩ ⟨BusStatus.active, SeatTier.empty, none, none⟩
      0 0 0 0 BusStatus.active SeatTier.empty 0 0 0).1 (by decide)
  · exact ((httpMutationEmitsExactlyOnce 10 none [demoBus] 1
      ⟨21, 86, none, none⟩ ⟨BusStatus.active, SeatTier.empty, none, none⟩
      0 0 0 0 BusStatus.active SeatTier.empty 0 0 0).2.2.2.1 (by decide)).1

/-- C5 counterexample.  Joining bus tracking sends the joining connection
nothing at all: the handler only executes `socket.join`, so the claimed
immediate current-snapshot message does not exist. -/
theorem joinSendsNoSnapshot :
    (joinBusTracking [] 3 1).2 = [] ∧ (joinBusTracking [] 3 1).1 = [(3, 1)] := by
  decide

/-- C5 as amended.  `join-bus-tracking` only records the room membership
(keeping all previous memberships); no initial snapshot — indeed no message
at all — is sent to the joining connection. -/
theorem joinOnlyAddsRoom (rooms : List (ℕ × ℕ)) (socketId busId : ℕ) :
    (joinBusTracking rooms socketId busId).2 = [] ∧
    (socketId, busId) ∈ (joinBusTracking rooms socketId busId).1 ∧
    ∀ m ∈ rooms, m ∈ (joinBusTracking rooms socketId busId).1 := by
  exact ⟨rfl, List.mem_cons_self _ _, fun m hm => List.mem_cons_of_mem _ hm⟩

/-- Witness for `joinOnlyAddsRoom` on a concrete room table. -/
theorem joinOnlyAddsRoomWitness :
    (joinBusTracking [(9, 4)] 3 1).2 = [] ∧
    ((9, 4) : ℕ × ℕ) ∈ (joinBusTracking [(9, 4)] 3 1).1 :=
  ⟨(joinOnlyAddsRoom [(9, 4)] 3 1).1,
    (joinOnlyAddsRoom [(9, 4)] 3 1).2.2 (9, 4) (by decide)⟩

/-- Reduction of the status handler on its success path. -/
theorem putStatus_success (now : ℕ) (u : Caller) (fleet : List Bus) (id : ℕ)
    (body : StatusBody) (bus : Bus)
    (hv : validStatusBody body = true)
    (hfind : findBus fleet id = some bus)
    (hauth : ¬ (u.role = Role.driver ∧ bus.driverId ≠ u.userId)) :
    putStatus now (some u) fleet id body =
      ⟨200,
        replaceBus fleet id (saveBus bus { bus with
          status := body.status
          seatAvailability := body.seatAvailability
          currentPassengers := body.currentPassengers.getD bus.currentPassengers
          destination := body.destination.getD bus.destination
          lastUpdated := now }),
        [Emit.statusUpdated id body.status body.seatAvailability
          (saveBus bus { bus with
            status := body.status
            seatAvailability := body.seatAvailability
            currentPassengers := body.currentPassengers.getD bus.currentPassengers
            destination := body.destination.getD bus.destination
            lastUpdated := now }).currentPassengers
          (saveBus bus { bus with
            status := body.status
            seatAvailability := body.seatAvailability
            currentPassengers := body.currentPassengers.getD bus.currentPassengers
            destination := body.destination.getD bus.destination
            lastUpdated := now }).destination now]⟩ := by
  simp [putStatus, hv, hfind, hauth]

/-- C2 counterexample.  A status mutation that supplies no occupancy commits
the caller-chosen tier verbatim: starting from `demoBus` (0 of 50 seats
taken, tier Empty), the mutation `{status: active, seatAvailability: Full}`
commits a snapshot whose occupancy is 0, capacity 50 and tier Full, while
the derivation on that same snapshot gives `hookTier 0 50 = Empty` — the
claimed no-drift invariant is false. -/
theorem seatTierDriftWithoutOccupancy :
    (putStatus 10 (some ⟨99, Role.admin⟩) [demoBus] 1
        ⟨BusStatus.active, SeatTier.full, none, none⟩).fleet = [demoDriftedBus] ∧
    demoDriftedBus.currentPassengers = 0 ∧
    demoDriftedBus.capacity = 50 ∧
    demoDriftedBus.seatAvailability = SeatTier.full ∧
    SeatTier.full ≠ hookTier 0 50 := by
  refine ⟨by decide, by decide, by decide, by decide, ?_⟩
  have h2 : hookTier 0 50 = SeatTier.empty := by norm_num [hookTier]
  rw [h2]
  decide

/-- C2 as amended.  When the status mutation does supply an occupancy value
and that value differs from the stored one, the commit recomputes the seat
tier through the pre-save hook, so the committed snapshot satisfies
`seatTier = deriveTier(occupancy, capacity)`. -/
theorem seatTierRecomputedWhenOccupancySupplied
    (now : ℕ) (u : Caller) (fleet : List Bus) (id : ℕ) (body : StatusBody)
    (c : ℤ) (bus : Bus)
    (hc : body.currentPassengers = some c)
    (hfind : findBus fleet id = some bus)
    (hauth : ¬ (u.role = Role.driver ∧ bus.driverId ≠ u.userId))
    (hv : validStatusBody body = true)
    (hdiff : c ≠ bus.currentPassengers) :
    ∀ b ∈ (putStatus now (some u) fleet id body).fleet, b.busId = id →
      b.seatAvailability = hookTier b.currentPassengers b.capacity := by
  intro b hb hbid
  rw [putStatus_success now u fleet id body bus hv hfind hauth] at hb
  rcases mem_replaceBus hb with rfl | ⟨-, hne⟩
  · have hmod : ({ bus with
        status := body.status
        seatAvailability := body.seatAvailability
        currentPassengers := body.currentPassengers.getD bus.currentPassengers
        destination := body.destination.getD bus.destination
        lastUpdated := now } : Bus).currentPassengers ≠ bus.currentPassengers := by
      simpa [hc] using hdiff
    rw [saveBus_tier_of_modified hmod, saveBus_currentPassengers, saveBus_capacity]
  · exact absurd hbid hne

/-- Witness for `seatTierRecomputedWhenOccupancySupplied`: an admin sets
occupancy 30 on `demoBus`; the committed document's tier equals the
derivation from its own occupancy and capacity. -/
theorem seatTierRecomputedWitness :
    (saveBus demoBus demoStatusDoc).seatAvailability =
      hookTier (saveBus demoBus demoStatusDoc).currentPassengers
        (saveBus demoBus demoStatusDoc).capacity :=
  seatTierRecomputedWhenOccupancySupplied 10 ⟨99, Role.admin⟩ [demoBus] 1
    ⟨BusStatus.active, SeatTier.full, some 30, none⟩ 30 demoBus rfl rfl
    (by decide) (by decide) (by decide) _ (List.mem_singleton.mpr rfl) rfl

/-- C6 as amended.  A location mutation whose id matches no stored document
fails 404 and changes nothing — but this covers only unknown ids, not
inactive vehicles (see the counterexample). -/
theorem unknownBusLocationNotFound (now : ℕ) (u : Caller) (fleet : List Bus)
    (id : ℕ) (body : LocBody)
    (hv : validLocBody body = true)
    (hfind : findBus fleet id = none) :
    putLocation now (some u) fleet id body = ⟨404, fleet, []⟩ := by
  simp [putLocation, hv, hfind]

/-- Witness for `unknownBusLocationNotFound` on the empty fleet. -/
theorem unknownBusLocationNotFoundWitness :
    putLocation 10 (some ⟨99, Role.admin⟩) [] 1 ⟨21, 86, none, none⟩ = ⟨404, [], []⟩ :=
  unknownBusLocationNotFound 10 ⟨99, Role.admin⟩ [] 1 ⟨21, 86, none, none⟩
    (by decide) rfl

/-- C6 counterexample.  A location mutation on a soft-deleted bus
(`isActive = false`) is NOT rejected with 404: the handler never checks
`isActive`, so the mutation succeeds and mutates the inactive document. -/
theorem inactiveBusLocationMutationSucceeds :
    (putLocation 10 (some ⟨99, Role.admin⟩) [demoInactiveBus] 1 ⟨21, 86, none, none⟩).status = 200 ∧
    (putLocation 10 (some ⟨99, Role.admin⟩) [demoInactiveBus] 1 ⟨21, 86, none, none⟩).status ≠ 404 ∧
    (putLocation 10 (some ⟨99, Role.admin⟩) [demoInactiveBus] 1 ⟨21, 86, none, none⟩).fleet ≠ [demoInactiveBus] ∧
    (putLocation 10 (some ⟨99, Role.admin⟩) [demoInactiveBus] 1 ⟨21, 86, none, none⟩).emits ≠ [] := by
  decide

/-- The location handler cannot change any stored passenger count. -/
theorem putLocation_fleet_nonneg (now : ℕ) (user : Option Caller)
    (fleet : List Bus) (id : ℕ) (body : LocBody)
    (h : ∀ b ∈ fleet, 0 ≤ b.currentPassengers) :
    ∀ b ∈ (putLocation now user fleet id body).fleet, 0 ≤ b.currentPassengers := by
  unfold putLocation
  split
  · exact h
  · split
    · split
      · exact h
      · rename_i bus hfind
        split
        · exact h
        · intro b hb
          rcases mem_replaceBus hb with rfl | ⟨hmem, -⟩
          · have hcp : (bus.updateLocation body.latitude body.longitude
                (body.speed.getD 0) (body.heading.getD 0) now).currentPassengers =
                bus.currentPassengers := by
              simp [Bus.updateLocation, saveBus_currentPassengers]
            rw [hcp]
            exact h bus (List.mem_of_find?_eq_some hfind)
          · exact h b hmem
    · exact h

/-- The status handler keeps every stored passenger count non-negative:
the route validator admits only non-negative supplied values and an
unsupplied value keeps the stored one. -/
theorem putStatus_fleet_nonneg (now : ℕ) (user : Option Caller)
    (fleet : List Bus) (id : ℕ) (body : StatusBody)
    (h : ∀ b ∈ fleet, 0 ≤ b.currentPassengers) :
    ∀ b ∈ (putStatus now user fleet id body).fleet, 0 ≤ b.currentPassengers := by
  unfold putStatus
  split
  · exact h
  · split
    · rename_i hv
      split
      · exact h
      · rename_i bus hfind
        split
        · exact h
        · intro b hb
          rcases mem_replaceBus hb with rfl | ⟨hmem, -⟩
          · rw [saveBus_currentPassengers]
            show 0 ≤ body.currentPassengers.getD bus.currentPassengers
            cases hcp : body.currentPassengers with
            | none => simpa using h bus (List.mem_of_find?_eq_some hfind)
            | some c =>
              have hvc := hv
              simp [validStatusBody, hcp] at hvc
              simpa using hvc
          · exact h b hmem
    · exact h

/-- C7 as amended.  Every handler preserves `occupancy ≥ 0`, and a freshly
registered bus starts at occupancy 0 — but nothing bounds occupancy by
capacity (see the counterexample). -/
theorem occupancyNonnegInvariant (now : ℕ) (user : Option Caller)
    (fleet : List Bus) (id : ℕ) (lb : LocBody) (sb : StatusBody)
    (bid did : ℕ) (cap : ℤ) (dest : ℕ)
    (h : ∀ b ∈ fleet, 0 ≤ b.currentPassengers) :
    (∀ b ∈ (putLocation now user fleet id lb).fleet, 0 ≤ b.currentPassengers) ∧
    (∀ b ∈ (putStatus now user fleet id sb).fleet, 0 ≤ b.currentPassengers) ∧
    0 ≤ (createBus bid did cap dest now).currentPassengers :=
  ⟨putLocation_fleet_nonneg now user fleet id lb h,
    putStatus_fleet_nonneg now user fleet id sb h,
    le_refl 0⟩

/-- Witness for `occupancyNonnegInvariant`: the document committed by a
location mutation on `demoBus` still has a non-negative passenger count. -/
theorem occupancyNonnegInvariantWitness :
    0 ≤ ({ demoBus with longitude := 86, latitude := 21, lastUpdated := 10 } : Bus).currentPassengers ∧
    0 ≤ (createBus 7 8 40 0 0).currentPassengers := by
  constructor
  · exact (occupancyNonnegInvariant 10 (some ⟨99, Role.admin⟩) [demoBus] 1
      ⟨21, 86, none, none⟩ ⟨BusStatus.active, SeatTier.empty, none, none⟩
      7 8 40 0 (by decide)).1
      { demoBus with longitude := 86, latitude := 21, lastUpdated := 10 } (by decide)
  · exact (occupancyNonnegInvariant 10 (some ⟨99, Role.admin⟩) [demoBus] 1
      ⟨21, 86, none, none⟩ ⟨BusStatus.active, SeatTier.empty, none, none⟩
      7 8 40 0 (by decide)).2.2

/-- C7 counterexample.  Neither the validator (`isInt({ min: 0 })` only)
nor the schema bounds occupancy by capacity: an admin commits 200
passengers on the 50-seat `demoBus` and the stored state violates
`occupancy ≤ capacity`. -/
theorem occupancyCanExceedCapacity :
    (putStatus 10 (some ⟨99, Role.admin⟩) [demoBus] 1
        ⟨BusStatus.active, SeatTier.full, some 200, none⟩).status = 200 ∧
    ((putStatus 10 (some ⟨99, Role.admin⟩) [demoBus] 1
        ⟨BusStatus.active, SeatTier.full, some 200, none⟩).fleet.all
      (fun b => decide (b.currentPassengers ≤ b.capacity))) = false := by
  decide

/-- C9 as amended.  The location validator accepts exactly
latitude ∈ [-90, 90], longitude ∈ [-180, 180], speed ≥ 0 and
heading ∈ [0, 360] — the heading bound is inclusive, unlike the claimed
half-open [0, 360) — and a validator failure yields 400 with no state
change and no broadcast. -/
theorem locationValidationSpec (now : ℕ) (u : Caller) (fleet : List Bus)
    (id : ℕ) (body : LocBody) :
    (validLocBody body = true ↔
      ((-90 ≤ body.latitude ∧ body.latitude ≤ 90) ∧
        (-180 ≤ body.longitude ∧ body.longitude ≤ 180) ∧
        (∀ s ∈ body.speed, 0 ≤ s) ∧
        (∀ hd ∈ body.heading, 0 ≤ hd ∧ hd ≤ 360))) ∧
    (validLocBody body = false →
      putLocation now (some u) fleet id body = ⟨400, fleet, []⟩) := by
  constructor
  · obtain ⟨la, lo, sp, he⟩ := body
    cases sp <;> cases he <;> simp [validLocBody] <;> tauto
  · intro hv
    simp [putLocation, hv]

/-- Witness for `locationValidationSpec`: an out-of-range latitude is
rejected with 400 and no side effect. -/
theorem locationValidationSpecWitness :
    putLocation 10 (some ⟨99, Role.admin⟩) [demoBus] 1 ⟨200, 85, none, none⟩ =
      ⟨400, [demoBus], []⟩ :=
  (locationValidationSpec 10 ⟨99, Role.admin⟩ [demoBus] 1 ⟨200, 85, none, none⟩).2
    (by decide)

/-- C9 counterexample.  A heading of exactly 360 passes the validator
(`isFloat({ min: 0, max: 360 })` is inclusive) and the mutation commits,
where the claim requires a `ValidationError` for heading = 360. -/
theorem headingAt360Accepted :
    validLocBody ⟨20, 85, none, some 360⟩ = true ∧
    (putLocation 10 (some ⟨5, Role.driver⟩) [demoBus] 1 ⟨20, 85, none, some 360⟩).status = 200 ∧
    (putLocation 10 (some ⟨5, Role.driver⟩) [demoBus] 1 ⟨20, 85, none, some 360⟩).fleet ≠ [demoBus] := by
  decide

theorem mem_insByDist {x y : Bus × ℚ} : ∀ {l : List (Bus × ℚ)},
    y ∈ insByDist x l ↔ y = x ∨ y ∈ l := by
  intro l
  induction l with
  | nil => simp [insByDist]
  | cons z zs ih =>
    unfold insByDist
    by_cases h : x.2 ≤ z.2
    · rw [if_pos h]
      simp [List.mem_cons]
    · rw [if_neg h]
      simp only [List.mem_cons, ih]
      tauto

theorem sorted_insByDist (x : Bus × ℚ) : ∀ {l : List (Bus × ℚ)},
    List.Sorted (fun a b : Bus × ℚ => a.2 ≤ b.2) l →
    List.Sorted (fun a b : Bus × ℚ => a.2 ≤ b.2) (insByDist x l) := by
  intro l
  induction l with
  | nil =>
    intro
    simp [insByDist]
  | cons z zs ih =>
    intro hs
    rw [List.sorted_cons] at hs
    obtain ⟨hz, hzs⟩ := hs
    unfold insByDist
    by_cases h : x.2 ≤ z.2
    · rw [if_pos h, List.sorted_cons]
      refine ⟨?_, List.sorted_cons.mpr ⟨hz, hzs⟩⟩
      intro b hb
      rcases List.mem_cons.mp hb with rfl | hb2
      · exact h
      · exact le_trans h (hz b hb2)
    · rw [if_neg h, List.sorted_cons]
      refine ⟨?_, ih hzs⟩
      intro b hb
      rcases mem_insByDist.mp hb with rfl | hb2
      · exact le_of_not_le h
      · exact hz b hb2

theorem sorted_sortByDist (l : List (Bus × ℚ)) :
    List.Sorted (fun a b : Bus × ℚ => a.2 ≤ b.2) (sortByDist l) := by
  induction l with
  | nil => simp [sortByDist]
  | cons x xs ih => exact sorted_insByDist x ih

theorem mem_sortByDist {y : Bus × ℚ} : ∀ {l : List (Bus × ℚ)},
    y ∈ sortByDist l ↔ y ∈ l := by
  intro l
  induction l with
  | nil => simp [sortByDist]
  | cons x xs ih =>
    show y ∈ insByDist x (sortByDist xs) ↔ _
    rw [mem_insByDist, ih]
    simp [List.mem_cons]

/-- C8 as amended.  For every distance function, query point, radius and
fleet, the nearby query returns entries sorted ascending by distance, each
within the radius, referring to a stored bus that is `active` in status and
not soft-deleted, with the recorded distance being that bus's distance from
the query point.  No result-count limit exists: neither `findNearby` nor
the route accepts one (see the counterexample). -/
theorem findNearbySpec (dist : ℚ × ℚ → ℚ × ℚ → ℚ) (center : ℚ × ℚ)
    (maxDistance : ℚ) (fleet : List Bus) :
    List.Sorted (fun a b : Bus × ℚ => a.2 ≤ b.2)
      (findNearby dist center maxDistance fleet) ∧
    ∀ x ∈ findNearby dist center maxDistance fleet,
      x.2 ≤ maxDistance ∧ x.1.isActive = true ∧ x.1.status = BusStatus.active ∧
        x.1 ∈ fleet ∧ x.2 = dist center (x.1.longitude, x.1.latitude) := by
  constructor
  · exact sorted_sortByDist _
  · intro x hx
    unfold findNearby at hx
    rw [mem_sortByDist] at hx
    rcases List.mem_filter.mp hx with ⟨hx1, hx2⟩
    rcases List.mem_map.mp hx1 with ⟨b, hb, rfl⟩
    rcases List.mem_filter.mp hb with ⟨hbf, hbp⟩
    simp only [Bool.and_eq_true, decide_eq_true_eq] at hbp hx2
    exact ⟨hx2, hbp.2, hbp.1, hbf, rfl⟩

/-- Witness for `findNearbySpec` under the discrete metric on a two-bus
fleet. -/
theorem findNearbySpecWitness :
    List.Sorted (fun a b : Bus × ℚ => a.2 ≤ b.2)
      (findNearby dist01 (85, 20) 5000 [demoBus, demoBusB]) ∧
    (demoBus, dist01 (85, 20) (demoBus.longitude, demoBus.latitude)).2 ≤ 5000 := by
  constructor
  · exact (findNearbySpec dist01 (85, 20) 5000 [demoBus, demoBusB]).1
  · exact ((findNearbySpec dist01 (85, 20) 5000 [demoBus, demoBusB]).2
      (demoBus, dist01 (85, 20) (demoBus.longitude, demoBus.latitude)) (by decide)).1

/-- C8 counterexample.  The implementation has no result-count limit: on a
two-bus fleet both active buses are returned, so the claimed bound "at most
n entries" already fails for n = 1. -/
theorem findNearbyUnbounded :
    ¬ (findNearby dist01 (85, 20) 5000 [demoBus, demoBusB]).length ≤ 1 := by
  decide
